import Mathlib

/-!
Verification of the render::Context frame-synchronization protocol, swapchain
negotiation, resource teardown order, staged texture upload and image-layout
transition table of the Vulkan-Project repository.

The definitions below are a shallow embedding of
src/lib/render/src/render/context.cpp (and its header context.hpp); the file
src/unnamed/part_010 is an earlier variant of the same translation unit and is
noted where the two differ.  Vulkan handles are opaque; what the embedding
keeps is exactly the data the code computes with: array lengths, indices,
signaled state of fences, branch conditions on VkResult values, and the order
of destruction / allocation events.
-/

namespace Render

/-- Constant kMaxFramesInFlight from context.hpp line 29: `constexpr int
kMaxFramesInFlight{2};` (the number K of frame slots). -/
def kMaxFramesInFlight : Nat := 2

/-- The VkResult values distinguished by BeginFrame / EndFrame
(VK_SUCCESS, VK_SUBOPTIMAL_KHR, VK_ERROR_OUT_OF_DATE_KHR); every other value
falls into the throwing branch and is represented by `errorOther`. -/
inductive VkResult
  | success
  | suboptimalKHR
  | errorOutOfDateKHR
  | errorOther
  deriving DecidableEq, Repr

/-- A semaphore handle, identified by the array it was created into
(imageAvailableSemaphores_ or renderFinishedSemaphores_) and its index
there.  CreateSyncObjects is the only creator of these handles. -/
inductive Semaphore
  | imageAvailable (i : Nat)
  | renderFinished (i : Nat)
  deriving DecidableEq, Repr

/-- Pipeline stage flags used by the Context (submit wait stage and the
barrier stages of TransitionImageLayout). -/
inductive PipelineStage
  | colorAttachmentOutput
  | topOfPipe
  | transfer
  | fragmentShader
  deriving DecidableEq, Repr

/-- Exceptions thrown by the frame cycle (std::runtime_error sites in
BeginFrame and EndFrame). -/
inductive DeviceError
  | acquireFailed
  | submitFailed
  | presentFailed
  deriving DecidableEq, Repr

/-- Struct BeginFrameInfo from context.hpp lines 192-194. -/
structure BeginFrameInfo where
  ifSwapchainRecreated : Bool
  deriving DecidableEq, Repr

/-- The synchronization-relevant member fields of render::Context
(context.hpp lines 576, 629-635).  A fence is modelled by its CPU-visible
signaled state (`true` = signaled). -/
structure ContextState where
  currentFrame : Nat
  currentSwapchainImageIndex : Nat
  imageAvailableSemaphores : List Semaphore
  renderFinishedSemaphores : List Semaphore
  inFlightFences : List Bool
  framebufferResized : Bool
  deriving DecidableEq, Repr

/-- The default-initialized Context members (context.hpp in-class
initializers): currentFrame_{0}, currentSwapchainImageIndex_{},
empty semaphore/fence vectors, framebufferResized_{false}. -/
def initialContext : ContextState :=
  { currentFrame := 0
    currentSwapchainImageIndex := 0
    imageAvailableSemaphores := []
    renderFinishedSemaphores := []
    inFlightFences := []
    framebufferResized := false }

/-- Context::CreateSyncObjects (context.cpp lines 166-185; identically
part_010 lines 1203-1222): resizes imageAvailableSemaphores_,
renderFinishedSemaphores_ and inFlightFences_ all to kMaxFramesInFlight and
creates each fence with VK_FENCE_CREATE_SIGNALED_BIT, i.e. already
signaled. -/
def createSyncObjects (s : ContextState) : ContextState :=
  { s with
    imageAvailableSemaphores :=
      (List.range kMaxFramesInFlight).map Semaphore.imageAvailable
    renderFinishedSemaphores :=
      (List.range kMaxFramesInFlight).map Semaphore.renderFinished
    inFlightFences := List.replicate kMaxFramesInFlight true }

/-- Context::BeginFrame (context.cpp lines 957-976; identically part_010
lines 1138-1157).  `acquire` is the VkResult of vkAcquireNextImageKHR and
`imageIndex` the image index it reports on success; the out-parameter
currentSwapchainImageIndex_ is only written when acquisition succeeds.
The blocking vkWaitForFences call at entry leaves the state unchanged and is
represented in the protocol relation `Step` by the requirement that the
slot's fence be signaled before this function runs.

Branches: VK_ERROR_OUT_OF_DATE_KHR means RecreateSwapchain is invoked and
BeginFrameInfo{true} is returned with the fence untouched; any result other
than VK_SUCCESS / VK_SUBOPTIMAL_KHR throws; otherwise the slot's fence is
reset (vkResetFences) and BeginFrameInfo{false} is returned. -/
def beginFrame (s : ContextState) (acquire : VkResult) (imageIndex : Nat) :
    Except DeviceError (ContextState × BeginFrameInfo) :=
  if acquire = VkResult.errorOutOfDateKHR then
    Except.ok (s, { ifSwapchainRecreated := true })
  else if acquire ≠ VkResult.success ∧ acquire ≠ VkResult.suboptimalKHR then
    Except.error DeviceError.acquireFailed
  else
    Except.ok
      ({ s with
         currentSwapchainImageIndex := imageIndex
         inFlightFences := s.inFlightFences.set s.currentFrame false },
       { ifSwapchainRecreated := false })

/-- The VkSubmitInfo fields filled in by Context::EndFrame. -/
structure SubmitCall where
  waitSemaphores : List Semaphore
  waitDstStageMask : List PipelineStage
  signalSemaphores : List Semaphore
  fenceSlot : Nat
  deriving DecidableEq, Repr

/-- The VkPresentInfoKHR fields filled in by Context::EndFrame. -/
structure PresentCall where
  waitSemaphores : List Semaphore
  imageIndices : List Nat
  deriving DecidableEq, Repr

/-- Everything Context::EndFrame does on a non-throwing run: the submit and
present calls it issued, whether it invoked RecreateSwapchain, and the
updated member state. -/
structure EndFrameResult where
  state : ContextState
  submit : SubmitCall
  present : PresentCall
  recreatedSwapchain : Bool
  deriving DecidableEq, Repr

/-- Context::EndFrame (context.cpp lines 978-1021; identically part_010
lines 1159-1201).  `submitResult` and `presentResult` are the VkResults of
vkQueueSubmit and vkQueuePresentKHR.

The submit waits on imageAvailableSemaphores_[currentFrame_] at the
COLOR_ATTACHMENT_OUTPUT stage, signals
renderFinishedSemaphores_[currentFrame_] and fences
inFlightFences_[currentFrame_]; a failed submit throws.  The present waits on
the same signal semaphore array and presents currentSwapchainImageIndex_.
If the present result is OUT_OF_DATE or SUBOPTIMAL, or framebufferResized_
is set, the flag is cleared and RecreateSwapchain runs; otherwise a
non-success present throws.  Finally currentFrame_ advances modulo
kMaxFramesInFlight. -/
def endFrame (s : ContextState) (submitResult presentResult : VkResult) :
    Except DeviceError EndFrameResult :=
  let submitCall : SubmitCall :=
    { waitSemaphores :=
        [s.imageAvailableSemaphores.getD s.currentFrame (Semaphore.imageAvailable 0)]
      waitDstStageMask := [PipelineStage.colorAttachmentOutput]
      signalSemaphores :=
        [s.renderFinishedSemaphores.getD s.currentFrame (Semaphore.renderFinished 0)]
      fenceSlot := s.currentFrame }
  if submitResult ≠ VkResult.success then
    Except.error DeviceError.submitFailed
  else
    let presentCall : PresentCall :=
      { waitSemaphores := submitCall.signalSemaphores
        imageIndices := [s.currentSwapchainImageIndex] }
    if presentResult = VkResult.errorOutOfDateKHR ∨
        presentResult = VkResult.suboptimalKHR ∨ s.framebufferResized then
      Except.ok
        { state :=
            { s with
              framebufferResized := false
              currentFrame := (s.currentFrame + 1) % kMaxFramesInFlight }
          submit := submitCall
          present := presentCall
          recreatedSwapchain := true }
    else if presentResult ≠ VkResult.success then
      Except.error DeviceError.presentFailed
    else
      Except.ok
        { state :=
            { s with
              currentFrame := (s.currentFrame + 1) % kMaxFramesInFlight }
          submit := submitCall
          present := presentCall
          recreatedSwapchain := false }

/-! Swapchain negotiation (part_010 lines 342-486: ChooseSwapSurfaceFormat,
ChooseSwapPresentMode, ChooseSwapExtent and the image-count computation of
CreateSwapChain; the context.cpp variant delegates the same negotiation to
the vk-bootstrap SwapchainBuilder). -/

/-- VkFormat values distinguished by the Context: the preferred swapchain
format VK_FORMAT_B8G8R8A8_SRGB, the three texture formats of
CreateTextureImage, and an opaque constructor for everything else. -/
inductive VkFormat
  | b8g8r8a8Srgb
  | r8Srgb
  | r8g8b8Srgb
  | r8g8b8a8Srgb
  | otherFormat (n : Nat)
  deriving DecidableEq, Repr

/-- VkColorSpaceKHR: the preferred VK_COLOR_SPACE_SRGB_NONLINEAR_KHR and an
opaque constructor for everything else. -/
inductive VkColorSpace
  | srgbNonlinear
  | otherColorSpace (n : Nat)
  deriving DecidableEq, Repr

/-- VkSurfaceFormatKHR. -/
structure VkSurfaceFormatKHR where
  format : VkFormat
  colorSpace : VkColorSpace
  deriving DecidableEq, Repr

/-- VkPresentModeKHR: the preferred mailbox mode, the FIFO fallback, and an
opaque constructor for the remaining modes. -/
inductive VkPresentMode
  | mailbox
  | fifo
  | otherMode (n : Nat)
  deriving DecidableEq, Repr

/-- VkExtent2D. -/
structure VkExtent2D where
  width : Nat
  height : Nat
  deriving DecidableEq, Repr

/-- The fields of VkSurfaceCapabilitiesKHR read by CreateSwapChain and
ChooseSwapExtent. -/
structure VkSurfaceCapabilitiesKHR where
  minImageCount : Nat
  maxImageCount : Nat
  currentExtent : VkExtent2D
  minImageExtent : VkExtent2D
  maxImageExtent : VkExtent2D
  deriving DecidableEq, Repr

/-- Value of std::numeric_limits of uint32_t max, the Vulkan sentinel meaning
the surface accepts any extent. -/
def uint32Max : Nat := 2 ^ 32 - 1

/-- Predicate of the preferred-format loop in Context::ChooseSwapSurfaceFormat
(part_010 lines 344-351): format == VK_FORMAT_B8G8R8A8_SRGB and colorSpace ==
VK_COLOR_SPACE_SRGB_NONLINEAR_KHR. -/
def isPreferredSurfaceFormat (f : VkSurfaceFormatKHR) : Bool :=
  f.format = VkFormat.b8g8r8a8Srgb ∧ f.colorSpace = VkColorSpace.srgbNonlinear

/-- Context::ChooseSwapSurfaceFormat (part_010 lines 342-358): return the
first available format matching the preferred format/colorSpace pair,
otherwise availableFormats[0].  The C++ indexes the vector unconditionally;
the empty-vector case (undefined behavior there) is `none` here. -/
def chooseSwapSurfaceFormat (availableFormats : List VkSurfaceFormatKHR) :
    Option VkSurfaceFormatKHR :=
  match availableFormats.find? isPreferredSurfaceFormat with
  | some f => some f
  | none => availableFormats.head?

/-- Context::ChooseSwapPresentMode (part_010 lines 360-373): return
VK_PRESENT_MODE_MAILBOX_KHR if available, else VK_PRESENT_MODE_FIFO_KHR. -/
def chooseSwapPresentMode (availablePresentModes : List VkPresentMode) :
    VkPresentMode :=
  match availablePresentModes.find? (fun m => m = VkPresentMode.mailbox) with
  | some m => m
  | none => VkPresentMode.fifo

/-- Semantics of std::clamp as used by ChooseSwapExtent. -/
def cppClamp (v lo hi : Nat) : Nat :=
  if v < lo then lo else if hi < v then hi else v

/-- Context::ChooseSwapExtent (part_010 lines 375-401): if
capabilities.currentExtent.width is not the uint32 sentinel, use
currentExtent as-is; otherwise clamp the glfwGetFramebufferSize result
(`framebufferSize`) componentwise to [minImageExtent, maxImageExtent]. -/
def chooseSwapExtent (capabilities : VkSurfaceCapabilitiesKHR)
    (framebufferSize : VkExtent2D) : VkExtent2D :=
  if capabilities.currentExtent.width ≠ uint32Max then
    capabilities.currentExtent
  else
    { width := cppClamp framebufferSize.width capabilities.minImageExtent.width
        capabilities.maxImageExtent.width
      height := cppClamp framebufferSize.height capabilities.minImageExtent.height
        capabilities.maxImageExtent.height }

/-- The image-count computation of Context::CreateSwapChain (part_010 lines
419-423): minImageCount + 1, overwritten with maxImageCount when a maximum
is reported (maxImageCount > 0) and the request exceeds it. -/
def swapchainImageCount (capabilities : VkSurfaceCapabilitiesKHR) : Nat :=
  let imageCount := capabilities.minImageCount + 1
  if capabilities.maxImageCount > 0 ∧ imageCount > capabilities.maxImageCount then
    capabilities.maxImageCount
  else
    imageCount

/-! Swapchain rebuild (context.cpp lines 1141-1155 Context::RecreateSwapchain;
identically part_010 lines 1240-1254 Context::RecreateSwapChain). -/

/-- The observable actions of Context::RecreateSwapchain after its
minimization-wait loop, in program order. -/
inductive RebuildEvent
  | deviceWaitIdle
  | cleanupSwapchain
  | createSwapchain
  | createSwapchainFramebuffers
  deriving DecidableEq, Repr

/-- Context::RecreateSwapchain (context.cpp lines 1141-1155): poll
glfwGetFramebufferSize, and while the reported width or height is zero keep
polling (glfwWaitEvents blocks between polls); once a nonzero extent is
observed, vkDeviceWaitIdle, then CleanupSwapchain, CreateSwapchain,
CreateSwapchainFramebuffers.  `polls` is the sequence of framebuffer sizes
the successive glfwGetFramebufferSize calls report; if every polled size is
zero-area the C++ loop never exits, which is `none` here. -/
def recreateSwapchain (polls : List VkExtent2D) :
    Option (VkExtent2D × List RebuildEvent) :=
  match polls with
  | [] => none
  | e :: rest =>
    if e.width = 0 ∨ e.height = 0 then
      recreateSwapchain rest
    else
      some (e,
        [RebuildEvent.deviceWaitIdle, RebuildEvent.cleanupSwapchain,
         RebuildEvent.createSwapchain, RebuildEvent.createSwapchainFramebuffers])

/-! Image-layout transitions and the staged texture upload
(context.cpp lines 1023-1092 Context::CreateTextureImage and lines 1196-1242
Context::TransitionImageLayout; this code exists only in the context.cpp
variant, part_010 predates textures). -/

/-- VkImageLayout values occurring in the render library: the two transition
endpoints of TransitionImageLayout plus the layouts named elsewhere in the
Context (render pass attachments, copy destination). -/
inductive VkImageLayout
  | undefinedLayout
  | transferDstOptimal
  | shaderReadOnlyOptimal
  | colorAttachmentOptimal
  | presentSrcKHR
  deriving DecidableEq, Repr

/-- VkAccessFlags bits set by TransitionImageLayout; a mask is a list of bits
(the empty list is the zero mask). -/
inductive VkAccess
  | transferWrite
  | shaderRead
  deriving DecidableEq, Repr

/-- The access-mask/stage-mask choice TransitionImageLayout makes for one
supported (oldLayout, newLayout) pair. -/
structure BarrierMasks where
  srcAccessMask : List VkAccess
  dstAccessMask : List VkAccess
  sourceStage : PipelineStage
  destinationStage : PipelineStage
  deriving DecidableEq, Repr

/-- Error thrown by the narrow paths of the texture upload:
std::invalid_argument("unsupported layout transition!") and
std::runtime_error("unsupported image format!"). -/
inductive UploadError
  | unsupportedTransition
  | unsupportedPixelFormat
  deriving DecidableEq, Repr

/-- The mask lookup of Context::TransitionImageLayout (context.cpp lines
1215-1236): Undefined → TransferDstOptimal gets (0, TRANSFER_WRITE,
TOP_OF_PIPE, TRANSFER); TransferDstOptimal → ShaderReadOnlyOptimal gets
(TRANSFER_WRITE, SHADER_READ, TRANSFER, FRAGMENT_SHADER); every other pair
throws std::invalid_argument("unsupported layout transition!"). -/
def transitionMasks (oldLayout newLayout : VkImageLayout) :
    Except UploadError BarrierMasks :=
  if oldLayout = VkImageLayout.undefinedLayout ∧
      newLayout = VkImageLayout.transferDstOptimal then
    Except.ok
      { srcAccessMask := []
        dstAccessMask := [VkAccess.transferWrite]
        sourceStage := PipelineStage.topOfPipe
        destinationStage := PipelineStage.transfer }
  else if oldLayout = VkImageLayout.transferDstOptimal ∧
      newLayout = VkImageLayout.shaderReadOnlyOptimal then
    Except.ok
      { srcAccessMask := [VkAccess.transferWrite]
        dstAccessMask := [VkAccess.shaderRead]
        sourceStage := PipelineStage.transfer
        destinationStage := PipelineStage.fragmentShader }
  else
    Except.error UploadError.unsupportedTransition

/-- The GPU-resource events of Context::CreateTextureImage in program order:
staging-buffer allocation (CreateBuffer → vkAllocateMemory), device-local
image allocation (CreateImage → vkAllocateMemory), a layout transition, the
buffer-to-image copy, and the staging-buffer release. -/
inductive TextureOp
  | allocStagingBuffer (byteSize : Nat)
  | allocImage (width height : Nat) (format : VkFormat)
  | transition (oldLayout newLayout : VkImageLayout)
  | copyBufferToImage (width height : Nat)
  | freeStagingBuffer
  deriving DecidableEq, Repr

/-- Context::CreateTextureImage (context.cpp lines 1023-1092) on a non-null
pixel buffer of the given width, height and channel count.  Program order:
allocate and fill a host-visible staging buffer of width*height*components
bytes; switch on the channel count (1 → VK_FORMAT_R8_SRGB, 3 →
VK_FORMAT_R8G8B8_SRGB, 4 → VK_FORMAT_R8G8B8A8_SRGB, anything else throws
"unsupported image format!" — note the staging buffer is already allocated at
that point); then allocate the device-local image, transition Undefined →
TransferDstOptimal, copy the buffer into the image, transition
TransferDstOptimal → ShaderReadOnlyOptimal, and free the staging buffer.
The result is the pair of the event trace performed up to return or throw
and the outcome (chosen format, or the thrown error). -/
def createTextureImage (width height components : Nat) :
    List TextureOp × Except UploadError VkFormat :=
  let imageSize := width * height * components
  let stagingOps := [TextureOp.allocStagingBuffer imageSize]
  match components with
  | 1 => (stagingOps ++ textureUploadOps width height VkFormat.r8Srgb,
          Except.ok VkFormat.r8Srgb)
  | 3 => (stagingOps ++ textureUploadOps width height VkFormat.r8g8b8Srgb,
          Except.ok VkFormat.r8g8b8Srgb)
  | 4 => (stagingOps ++ textureUploadOps width height VkFormat.r8g8b8a8Srgb,
          Except.ok VkFormat.r8g8b8a8Srgb)
  | _ => (stagingOps, Except.error UploadError.unsupportedPixelFormat)
where
  /-- The events after the format switch (context.cpp lines 1065-1087). -/
  textureUploadOps (width height : Nat) (format : VkFormat) : List TextureOp :=
    [TextureOp.allocImage width height format,
     TextureOp.transition VkImageLayout.undefinedLayout
       VkImageLayout.transferDstOptimal,
     TextureOp.copyBufferToImage width height,
     TextureOp.transition VkImageLayout.transferDstOptimal
       VkImageLayout.shaderReadOnlyOptimal,
     TextureOp.freeStagingBuffer]

/-! Context teardown (context.cpp lines 34-136 Context::Cleanup; the part_010
variant at lines 5-93 is the same sequence minus the sampler and
texture-image kinds it predates). -/

/-- The per-kind resource collections (and final singleton handles) destroyed
by Context::Cleanup. -/
inductive ResourceKind
  | swapchainResources
  | samplers
  | textureImages
  | uniformBuffers
  | descriptorPools
  | descriptorSetLayouts
  | pipelines
  | pipelineLayouts
  | framebuffers
  | renderPasses
  | shaderModules
  | imageViews
  | syncObjects
  | commandPools
  | vertexBuffers
  | indexBuffers
  | device
  | surface
  | vkInstance
  | window
  deriving DecidableEq, Repr

/-- The destruction sequence of Context::Cleanup (context.cpp lines 34-136),
one entry per per-kind destruction loop, in program order: CleanupSwapchain
first, then samplers, texture images (+ memories), uniform buffers
(+ memories), descriptor pools, descriptor set layouts, pipelines, pipeline
layouts, framebuffers, render passes, shader modules, image views, the
per-slot semaphores and fences, command pools, vertex buffers (+ memories),
index buffers (+ memories), and finally device, surface, instance and the
GLFW window. -/
def cleanupOrder : List ResourceKind :=
  [ResourceKind.swapchainResources,
   ResourceKind.samplers,
   ResourceKind.textureImages,
   ResourceKind.uniformBuffers,
   ResourceKind.descriptorPools,
   ResourceKind.descriptorSetLayouts,
   ResourceKind.pipelines,
   ResourceKind.pipelineLayouts,
   ResourceKind.framebuffers,
   ResourceKind.renderPasses,
   ResourceKind.shaderModules,
   ResourceKind.imageViews,
   ResourceKind.syncObjects,
   ResourceKind.commandPools,
   ResourceKind.vertexBuffers,
   ResourceKind.indexBuffers,
   ResourceKind.device,
   ResourceKind.surface,
   ResourceKind.vkInstance,
   ResourceKind.window]

/-- Kind `a` is destroyed strictly before kind `b` during Context::Cleanup. -/
def destroyedBefore (a b : ResourceKind) : Bool :=
  cleanupOrder.indexOf a < cleanupOrder.indexOf b

/-! The frame-synchronization protocol as a transition system.  The only true
concurrency in the design is between the single CPU thread running
BeginFrame/EndFrame and the GPU retiring submitted work; a system state pairs
the Context members with the number of not-yet-retired GPU submissions per
frame slot. -/

/-- A state of the combined CPU-thread / GPU system: the Context members,
the per-slot count of GPU submissions submitted but not yet retired
(indexed like inFlightFences_), and whether the CPU thread is between a
rendered BeginFrame and its EndFrame. -/
structure SysState where
  ctx : ContextState
  gpuPending : List Nat
  recording : Bool
  deriving DecidableEq, Repr

/-- Number of outstanding GPU submissions for slot `i`. -/
def SysState.pendingAt (σ : SysState) (i : Nat) : Nat :=
  σ.gpuPending.getD i 0

/-- Signaled state of slot `i`'s completion fence. -/
def SysState.fenceAt (σ : SysState) (i : Nat) : Bool :=
  σ.ctx.inFlightFences.getD i false

/-- Effect of the vkDeviceWaitIdle performed by RecreateSwapchain: every
outstanding submission retires, and retiring a submission signals the fence
it was submitted with. -/
def deviceWaitIdle (σ : SysState) : SysState :=
  { σ with
    ctx :=
      { σ.ctx with
        inFlightFences :=
          (List.range σ.ctx.inFlightFences.length).map
            (fun i => σ.fenceAt i || decide (0 < σ.pendingAt i)) }
    gpuPending := σ.gpuPending.map (fun _ => 0) }

/-- State after the EndFrame submit: one more pending submission for the slot
that was current when EndFrame ran, fenced by that slot's fence. -/
def submitToSlot (σ : SysState) : List Nat :=
  σ.gpuPending.set σ.ctx.currentFrame (σ.pendingAt σ.ctx.currentFrame + 1)

/-- System state after a non-throwing EndFrame run `r` starting from `σ`:
the submit is pending for the old current slot, recording is over, and if
the run invoked RecreateSwapchain its vkDeviceWaitIdle retires everything. -/
def afterEndFrame (σ : SysState) (r : EndFrameResult) : SysState :=
  let σ2 : SysState :=
    { ctx := r.state, gpuPending := submitToSlot σ, recording := false }
  if r.recreatedSwapchain then deviceWaitIdle σ2 else σ2

/-- System state after a non-throwing BeginFrame producing context `c` and
info `info` from `σ`: if the acquire reported OUT_OF_DATE the call invoked
RecreateSwapchain (whose vkDeviceWaitIdle retires everything) and the caller
skips the frame; otherwise the slot is now recording. -/
def afterBeginFrame (σ : SysState) (c : ContextState) (info : BeginFrameInfo) :
    SysState :=
  if info.ifSwapchainRecreated then
    deviceWaitIdle { ctx := c, gpuPending := σ.gpuPending, recording := false }
  else
    { ctx := c, gpuPending := σ.gpuPending, recording := true }

/-- One step of the combined system.  The CPU steps run the embedded
BeginFrame/EndFrame; BeginFrame is enabled only when slot currentFrame_'s
fence is signaled, which is exactly when its blocking vkWaitForFences call
returns.  The GPU step retires one outstanding submission of some slot and
signals that slot's fence. -/
inductive Step : SysState → SysState → Prop
  | gpuRetire (σ : SysState) (i : Nat)
      (hp : 0 < σ.pendingAt i) :
      Step σ
        { σ with
          ctx :=
            { σ.ctx with inFlightFences := σ.ctx.inFlightFences.set i true }
          gpuPending := σ.gpuPending.set i (σ.pendingAt i - 1) }
  | beginFrameStep (σ : SysState) (acquire : VkResult) (imageIndex : Nat)
      (c : ContextState) (info : BeginFrameInfo)
      (hidle : σ.recording = false)
      (hfence : σ.fenceAt σ.ctx.currentFrame = true)
      (hrun : beginFrame σ.ctx acquire imageIndex = Except.ok (c, info)) :
      Step σ (afterBeginFrame σ c info)
  | endFrameStep (σ : SysState) (submitResult presentResult : VkResult)
      (r : EndFrameResult)
      (hrec : σ.recording = true)
      (hrun : endFrame σ.ctx submitResult presentResult = Except.ok r) :
      Step σ (afterEndFrame σ r)

/-- The system state right after Context::Initialize ran CreateSyncObjects:
no GPU work has ever been submitted and the CPU thread is outside a frame. -/
def initSysState : SysState :=
  { ctx := createSyncObjects initialContext
    gpuPending := List.replicate kMaxFramesInFlight 0
    recording := false }

/-- States reachable from initialization by BeginFrame/EndFrame cycles
interleaved with GPU retirement. -/
inductive Reachable : SysState → Prop
  | init : Reachable initSysState
  | step {σ σ2 : SysState} : Reachable σ → Step σ σ2 → Reachable σ2

/-- The inductive protocol invariant: the per-slot vectors keep their size
K = kMaxFramesInFlight and the slot cursor stays in range; at most one
submission per slot is outstanding; a signaled fence means its slot has
nothing outstanding; every slot either has a signaled fence, or outstanding
work that will signal it, or is the slot currently recording (whose fence
was reset by BeginFrame and whose submit has not happened yet). -/
def Inv (σ : SysState) : Prop :=
  σ.gpuPending.length = kMaxFramesInFlight ∧
  σ.ctx.inFlightFences.length = kMaxFramesInFlight ∧
  σ.ctx.currentFrame < kMaxFramesInFlight ∧
  (∀ i, σ.pendingAt i ≤ 1) ∧
  (∀ i, σ.fenceAt i = true → σ.pendingAt i = 0) ∧
  (σ.recording = true →
    σ.pendingAt σ.ctx.currentFrame = 0 ∧
    σ.fenceAt σ.ctx.currentFrame = false) ∧
  (∀ i, i < kMaxFramesInFlight →
    σ.fenceAt i = true ∨ 0 < σ.pendingAt i ∨
    (σ.recording = true ∧ i = σ.ctx.currentFrame))

/-- The Context state produced by the image-acquired branch of BeginFrame:
the acquired index is stored and the slot's fence is reset. -/
def acquiredState (s : ContextState) (idx : Nat) : ContextState :=
  { s with
    currentSwapchainImageIndex := idx
    inFlightFences := s.inFlightFences.set s.currentFrame false }

/-- Fixture for the concrete scenarios: a surface reporting image-count
bounds [2, 4], a fixed 800x600 current extent, and sane extent bounds. -/
def capsScenarioA : VkSurfaceCapabilitiesKHR :=
  { minImageCount := 2
    maxImageCount := 4
    currentExtent := { width := 800, height := 600 }
    minImageExtent := { width := 1, height := 1 }
    maxImageExtent := { width := 4096, height := 4096 } }

/-- Fixture: the surface-format list of the concrete scenario, offering the
preferred sRGB format first. -/
def formatsScenarioA : List VkSurfaceFormatKHR :=
  [{ format := VkFormat.b8g8r8a8Srgb, colorSpace := VkColorSpace.srgbNonlinear },
   { format := VkFormat.otherFormat 7, colorSpace := VkColorSpace.otherColorSpace 3 }]

/-- Fixture: the Context as left by Initialize (CreateSyncObjects applied to
the default-initialized members). -/
def readyContext : ContextState := createSyncObjects initialContext

/-! Auxiliary list lemmas for the protocol proofs. -/

theorem getD_set_self {α : Type} (l : List α) (i : Nat) (x d : α)
    (h : i < l.length) : (l.set i x).getD i d = x := by
  simp [List.getD_eq_getElem?_getD, List.getElem?_set, h]

theorem getD_set_ne {α : Type} (l : List α) {i j : Nat} (x d : α)
    (h : i ≠ j) : (l.set i x).getD j d = l.getD j d := by
  simp [List.getD_eq_getElem?_getD, List.getElem?_set, h]

theorem getD_range_map_lt {α : Type} (f : Nat → α) {n i : Nat} (d : α)
    (h : i < n) : ((List.range n).map f).getD i d = f i := by
  simp [List.getD_eq_getElem?_getD, List.getElem?_map, List.getElem?_range, h]

theorem getD_map_zero (l : List Nat) (i : Nat) :
    (l.map (fun _ => 0)).getD i 0 = 0 := by
  rw [List.getD_eq_getElem?_getD, List.getElem?_map]
  cases l[i]? <;> simp

theorem lt_length_of_getD_pos (l : List Nat) {i : Nat} (h : 0 < l.getD i 0) :
    i < l.length := by
  by_contra hge
  rw [List.getD_eq_default l 0 (Nat.le_of_not_lt hge)] at h
  exact Nat.lt_irrefl 0 h

/-! Characterizations of the non-throwing runs of the embedded
BeginFrame / EndFrame. -/

/-- A non-throwing BeginFrame either hit the OUT_OF_DATE branch (state
untouched, info true) or acquired an image (index stored, slot fence reset,
info false). -/
theorem beginFrame_ok_elim {s : ContextState} {a : VkResult} {idx : Nat}
    {c : ContextState} {info : BeginFrameInfo}
    (h : beginFrame s a idx = Except.ok (c, info)) :
    (info = { ifSwapchainRecreated := true } ∧ c = s) ∨
    (info = { ifSwapchainRecreated := false } ∧ c = acquiredState s idx) := by
  unfold beginFrame at h
  split at h
  · left
    simp only [Except.ok.injEq, Prod.mk.injEq] at h
    exact ⟨h.2.symm, h.1.symm⟩
  · split at h
    · cases h
    · right
      simp only [Except.ok.injEq, Prod.mk.injEq] at h
      exact ⟨h.2.symm, h.1.symm⟩

/-- A non-throwing EndFrame leaves the fence vector untouched and advances
the slot cursor modulo kMaxFramesInFlight. -/
theorem endFrame_ok_state {s : ContextState} {sr pr : VkResult}
    {r : EndFrameResult} (h : endFrame s sr pr = Except.ok r) :
    r.state.inFlightFences = s.inFlightFences ∧
    r.state.currentFrame = (s.currentFrame + 1) % kMaxFramesInFlight := by
  unfold endFrame at h
  split at h
  · cases h
  · split at h
    · simp only [Except.ok.injEq] at h
      subst h
      exact ⟨rfl, rfl⟩
    · split at h
      · cases h
      · simp only [Except.ok.injEq] at h
        subst h
        exact ⟨rfl, rfl⟩

/-! The protocol invariant is inductive. -/

/-- A device-idle wait preserves the invariant outside of recording. -/
theorem inv_deviceWaitIdle {σ : SysState} (hInv : Inv σ)
    (hrec : σ.recording = false) : Inv (deviceWaitIdle σ) := by
  obtain ⟨hl1, hl2, hcf, _hle, _hfp, _hrecInv, hlive⟩ := hInv
  refine ⟨?_, ?_, ?_, ?_, ?_, ?_, ?_⟩
  · simpa [deviceWaitIdle] using hl1
  · simpa [deviceWaitIdle] using hl2
  · simpa [deviceWaitIdle] using hcf
  · intro i
    simp [deviceWaitIdle, SysState.pendingAt, getD_map_zero]
  · intro i _
    simp [deviceWaitIdle, SysState.pendingAt, getD_map_zero]
  · intro hr
    rw [show (deviceWaitIdle σ).recording = σ.recording from rfl, hrec] at hr
    cases hr
  · intro i hi
    left
    have hlen : i < σ.ctx.inFlightFences.length := hl2 ▸ hi
    have hfi : (deviceWaitIdle σ).fenceAt i =
        (σ.fenceAt i || decide (0 < σ.pendingAt i)) := by
      show ((List.range σ.ctx.inFlightFences.length).map
        (fun j => σ.fenceAt j || decide (0 < σ.pendingAt j))).getD i false = _
      rw [getD_range_map_lt _ _ hlen]
    rcases hlive i hi with hf | hp | ⟨hr, _⟩
    · rw [hfi, hf]
      simp
    · rw [hfi]
      simp [hp]
    · rw [hrec] at hr
      cases hr

/-- Every step of the combined system preserves the invariant. -/
theorem inv_step {σ σ2 : SysState} (hInv : Inv σ) (hstep : Step σ σ2) :
    Inv σ2 := by
  obtain ⟨hl1, hl2, hcf, hle, hfp, hrecInv, hlive⟩ := hInv
  cases hstep with
  | gpuRetire i hp =>
    have hilt : i < σ.gpuPending.length := lt_length_of_getD_pos _ hp
    have hiK : i < kMaxFramesInFlight := hl1 ▸ hilt
    have hiltF : i < σ.ctx.inFlightFences.length := hl2 ▸ hiK
    have hone : σ.pendingAt i = 1 := Nat.le_antisymm (hle i) hp
    refine ⟨?_, ?_, ?_, ?_, ?_, ?_, ?_⟩
    · simpa using hl1
    · simpa using hl2
    · simpa using hcf
    · intro j
      by_cases hji : i = j
      · subst hji
        show (σ.gpuPending.set i (σ.pendingAt i - 1)).getD i 0 ≤ 1
        rw [getD_set_self _ _ _ _ hilt]
        omega
      · show (σ.gpuPending.set i (σ.pendingAt i - 1)).getD j 0 ≤ 1
        rw [getD_set_ne _ _ _ hji]
        exact hle j
    · intro j hf
      by_cases hji : i = j
      · subst hji
        show (σ.gpuPending.set i (σ.pendingAt i - 1)).getD i 0 = 0
        rw [getD_set_self _ _ _ _ hilt, hone]
      · replace hf : (σ.ctx.inFlightFences.set i true).getD j false = true := hf
        rw [getD_set_ne _ _ _ hji] at hf
        show (σ.gpuPending.set i (σ.pendingAt i - 1)).getD j 0 = 0
        rw [getD_set_ne _ _ _ hji]
        exact hfp j hf
    · intro hr
      have hrσ : σ.recording = true := hr
      obtain ⟨hp0, hf0⟩ := hrecInv hrσ
      have hicf : i ≠ σ.ctx.currentFrame := by
        intro hEq
        rw [hEq, hp0] at hone
        cases hone
      constructor
      · show (σ.gpuPending.set i (σ.pendingAt i - 1)).getD σ.ctx.currentFrame 0 = 0
        rw [getD_set_ne _ _ _ hicf]
        exact hp0
      · show (σ.ctx.inFlightFences.set i true).getD σ.ctx.currentFrame false = false
        rw [getD_set_ne _ _ _ hicf]
        exact hf0
    · intro j hj
      by_cases hji : i = j
      · subst hji
        left
        show (σ.ctx.inFlightFences.set i true).getD i false = true
        rw [getD_set_self _ _ _ _ hiltF]
      · rcases hlive j hj with hf | hp2 | hrj
        · left
          show (σ.ctx.inFlightFences.set i true).getD j false = true
          rw [getD_set_ne _ _ _ hji]
          exact hf
        · right; left
          show 0 < (σ.gpuPending.set i (σ.pendingAt i - 1)).getD j 0
          rw [getD_set_ne _ _ _ hji]
          exact hp2
        · right; right
          exact hrj
  | beginFrameStep acquire imageIndex c info hidle hfence hrun =>
    have hbase :
        Inv { ctx := σ.ctx, gpuPending := σ.gpuPending, recording := false } :=
      ⟨hl1, hl2, hcf, hle, hfp, (by intro hr; cases hr),
        by
          intro i hi
          rcases hlive i hi with hf | hp | ⟨hr, _⟩
          · exact Or.inl hf
          · exact Or.inr (Or.inl hp)
          · rw [hidle] at hr; cases hr⟩
    rcases beginFrame_ok_elim hrun with ⟨hinfo, hc⟩ | ⟨hinfo, hc⟩
    · -- OUT_OF_DATE: RecreateSwapchain ran, caller skips the frame.
      subst hinfo
      subst hc
      exact inv_deviceWaitIdle hbase rfl
    · -- Image acquired: the slot starts recording with a reset fence.
      subst hinfo
      subst hc
      show Inv
        { ctx := acquiredState σ.ctx imageIndex
          gpuPending := σ.gpuPending
          recording := true }
      have hcfF : σ.ctx.currentFrame < σ.ctx.inFlightFences.length := hl2 ▸ hcf
      have hp0 : σ.pendingAt σ.ctx.currentFrame = 0 := hfp _ hfence
      refine ⟨hl1, ?_, hcf, hle, ?_, ?_, ?_⟩
      · show (σ.ctx.inFlightFences.set σ.ctx.currentFrame false).length =
          kMaxFramesInFlight
        simpa using hl2
      · intro j hf
        by_cases hji : σ.ctx.currentFrame = j
        · subst hji
          replace hf : (σ.ctx.inFlightFences.set σ.ctx.currentFrame
            false).getD σ.ctx.currentFrame false = true := hf
          rw [getD_set_self _ _ _ _ hcfF] at hf
          cases hf
        · apply hfp j
          replace hf : (σ.ctx.inFlightFences.set σ.ctx.currentFrame
            false).getD j false = true := hf
          rwa [getD_set_ne _ _ _ hji] at hf
      · intro _
        refine ⟨hp0, ?_⟩
        show (σ.ctx.inFlightFences.set σ.ctx.currentFrame
          false).getD σ.ctx.currentFrame false = false
        rw [getD_set_self _ _ _ _ hcfF]
      · intro j hj
        by_cases hji : j = σ.ctx.currentFrame
        · exact Or.inr (Or.inr ⟨rfl, hji⟩)
        · rcases hlive j hj with hf | hp | ⟨hr, hjcf⟩
          · left
            show (σ.ctx.inFlightFences.set σ.ctx.currentFrame
              false).getD j false = true
            rw [getD_set_ne _ _ _ (fun hEq => hji hEq.symm)]
            exact hf
          · exact Or.inr (Or.inl hp)
          · rw [hidle] at hr; cases hr
  | endFrameStep submitResult presentResult r hrec hrun =>
    obtain ⟨hfences, hadv⟩ := endFrame_ok_state hrun
    obtain ⟨hp0, hf0⟩ := hrecInv hrec
    have hcfP : σ.ctx.currentFrame < σ.gpuPending.length := hl1 ▸ hcf
    have hbase :
        Inv { ctx := r.state, gpuPending := submitToSlot σ, recording := false } := by
      refine ⟨?_, ?_, ?_, ?_, ?_, ?_, ?_⟩
      · simpa [submitToSlot] using hl1
      · show r.state.inFlightFences.length = kMaxFramesInFlight
        rw [hfences]
        exact hl2
      · show r.state.currentFrame < kMaxFramesInFlight
        rw [hadv]
        exact Nat.mod_lt _ (by decide)
      · intro j
        by_cases hji : σ.ctx.currentFrame = j
        · subst hji
          show (submitToSlot σ).getD σ.ctx.currentFrame 0 ≤ 1
          rw [submitToSlot, getD_set_self _ _ _ _ hcfP, hp0]
        · show (submitToSlot σ).getD j 0 ≤ 1
          rw [submitToSlot, getD_set_ne _ _ _ hji]
          exact hle j
      · intro j hf
        replace hf : r.state.inFlightFences.getD j false = true := hf
        rw [hfences] at hf
        by_cases hji : σ.ctx.currentFrame = j
        · subst hji
          replace hf0 : σ.ctx.inFlightFences.getD σ.ctx.currentFrame
            false = false := hf0
          rw [hf0] at hf
          cases hf
        · show (submitToSlot σ).getD j 0 = 0
          rw [submitToSlot, getD_set_ne _ _ _ hji]
          exact hfp j hf
      · intro hr; cases hr
      · intro j hj
        by_cases hji : σ.ctx.currentFrame = j
        · subst hji
          right; left
          show 0 < (submitToSlot σ).getD σ.ctx.currentFrame 0
          rw [submitToSlot, getD_set_self _ _ _ _ hcfP, hp0]
          exact Nat.zero_lt_one
        · rcases hlive j hj with hf | hp | ⟨_, hjcf⟩
          · left
            show r.state.inFlightFences.getD j false = true
            rw [hfences]
            exact hf
          · right; left
            show 0 < (submitToSlot σ).getD j 0
            rw [submitToSlot, getD_set_ne _ _ _ hji]
            exact hp
          · exact absurd hjcf.symm hji
    show Inv (afterEndFrame σ r)
    rw [afterEndFrame]
    split
    · exact inv_deviceWaitIdle hbase rfl
    · exact hbase

/-- The invariant holds initially: the fences come out of CreateSyncObjects
already signaled and no GPU work is outstanding. -/
theorem inv_init : Inv initSysState := by
  refine ⟨rfl, rfl, by decide, ?_, ?_, ?_, ?_⟩
  · intro i
    rcases i with _ | _ | i
    · decide
    · decide
    · show (List.replicate kMaxFramesInFlight 0).getD (i + 2) 0 ≤ 1
      rw [List.getD_eq_default _ _ (by simp [kMaxFramesInFlight])]
      exact Nat.zero_le 1
  · intro i _
    rcases i with _ | _ | i
    · decide
    · decide
    · show (List.replicate kMaxFramesInFlight 0).getD (i + 2) 0 = 0
      rw [List.getD_eq_default _ _ (by simp [kMaxFramesInFlight])]
  · intro hr; cases hr
  · intro i hi
    left
    rcases i with _ | _ | i
    · decide
    · decide
    · exfalso
      simp [kMaxFramesInFlight] at hi
      omega


/-- Every reachable state satisfies the invariant. -/
theorem reachable_inv {σ : SysState} (h : Reachable σ) : Inv σ := by
  induction h with
  | init => exact inv_init
  | step _ hstep ih => exact inv_step ih hstep

/-! Claim theorems. -/

/-- C1: the claim says the "rendering finished" semaphore array is sized to
the swapchain's image count and indexed by the acquired image index.  The
code does neither, in every variant of the repository: CreateSyncObjects
resizes renderFinishedSemaphores_ to kMaxFramesInFlight = 2, and EndFrame
signals renderFinishedSemaphores_[currentFrame_] — the frame-slot index.
Concretely, with the surface of the [2, 4] scenario the swapchain holds
min + 1 = 3 images, yet the array has 2 entries; and in a frame where slot 1
presents acquired image 2 the submission signals the slot-indexed semaphore
renderFinished 1, not the image-indexed renderFinished 2. -/
theorem c1_renderFinished_slot_indexed :
    readyContext.renderFinishedSemaphores.length = kMaxFramesInFlight ∧
    kMaxFramesInFlight = 2 ∧
    swapchainImageCount capsScenarioA = 3 ∧
    readyContext.renderFinishedSemaphores.length ≠ swapchainImageCount capsScenarioA ∧
    (endFrame { readyContext with currentFrame := 1, currentSwapchainImageIndex := 2 }
        VkResult.success VkResult.success).map (fun r => r.submit.signalSemaphores) =
      Except.ok [Semaphore.renderFinished 1] ∧
    (endFrame { readyContext with currentFrame := 1, currentSwapchainImageIndex := 2 }
        VkResult.success VkResult.success).map (fun r => r.present.imageIndices) =
      Except.ok [2] ∧
    Semaphore.renderFinished 1 ≠ Semaphore.renderFinished 2 := by
  refine ⟨rfl, rfl, rfl, by decide, rfl, rfl, by decide⟩

/-- C2: in every reachable state of the BeginFrame/EndFrame protocol, each
frame slot has at most one GPU submission outstanding, and a signaled slot
fence means the slot has nothing outstanding — slot i's previous work has
retired before the slot is reused. -/
theorem c2_at_most_one_submission_per_slot {σ : SysState} (h : Reachable σ)
    (i : Nat) :
    σ.pendingAt i ≤ 1 ∧ (σ.fenceAt i = true → σ.pendingAt i = 0) := by
  obtain ⟨_, _, _, hle, hfp, _, _⟩ := reachable_inv h
  exact ⟨hle i, hfp i⟩

/-- Witness for C2: the bound holds in the state reached by one successful
BeginFrame from initialization. -/
theorem c2_at_most_one_submission_per_slot_witness :
    (afterBeginFrame initSysState (acquiredState initSysState.ctx 1)
        { ifSwapchainRecreated := false }).pendingAt 0 ≤ 1 ∧
      ((afterBeginFrame initSysState (acquiredState initSysState.ctx 1)
        { ifSwapchainRecreated := false }).fenceAt 0 = true →
        (afterBeginFrame initSysState (acquiredState initSysState.ctx 1)
          { ifSwapchainRecreated := false }).pendingAt 0 = 0) :=
  c2_at_most_one_submission_per_slot
    (Reachable.step Reachable.init
      (Step.beginFrameStep initSysState VkResult.success 1
        (acquiredState initSysState.ctx 1) { ifSwapchainRecreated := false }
        rfl rfl rfl)) 0

/-- C3: BeginFrame's error contract.  On a stale surface (OUT_OF_DATE) it
returns ifSwapchainRecreated = true — no frame rendered — with the member
state, in particular the slot's fence, untouched; on a successful or
suboptimal acquire it stores the image index and resets the slot's fence to
unsignaled; on any other acquire result it throws. -/
theorem c3_beginFrame_error_contract (s : ContextState) (idx : Nat) :
    beginFrame s VkResult.errorOutOfDateKHR idx =
      Except.ok (s, { ifSwapchainRecreated := true }) ∧
    beginFrame s VkResult.success idx =
      Except.ok (acquiredState s idx, { ifSwapchainRecreated := false }) ∧
    beginFrame s VkResult.suboptimalKHR idx =
      Except.ok (acquiredState s idx, { ifSwapchainRecreated := false }) ∧
    beginFrame s VkResult.errorOther idx =
      Except.error DeviceError.acquireFailed ∧
    (acquiredState s idx).inFlightFences =
      s.inFlightFences.set s.currentFrame false := by
  exact ⟨rfl, rfl, rfl, rfl, rfl⟩

/-- C10: CreateSyncObjects creates every slot fence already signaled; hence
in the initial state the very first BeginFrame's fence wait on slot 0 is
already satisfied with no prior submission, and in every reachable state
outside of recording, a slot with no outstanding submission has a signaled
fence (so no fence wait blocks forever). -/
theorem c10_initial_fences_signaled :
    (createSyncObjects initialContext).inFlightFences =
      List.replicate kMaxFramesInFlight true ∧
    initSysState.fenceAt initSysState.ctx.currentFrame = true ∧
    (∀ i, initSysState.pendingAt i = 0) ∧
    (∀ σ : SysState, Reachable σ → σ.recording = false →
      ∀ i, i < kMaxFramesInFlight → σ.pendingAt i = 0 → σ.fenceAt i = true) := by
  refine ⟨rfl, rfl, ?_, ?_⟩
  · intro i
    rcases i with _ | _ | i
    · decide
    · decide
    · show (List.replicate kMaxFramesInFlight 0).getD (i + 2) 0 = 0
      rw [List.getD_eq_default _ _ (by simp [kMaxFramesInFlight])]
  · intro σ h hrec i hi hp
    rcases (reachable_inv h).2.2.2.2.2.2 i hi with hf | hpos | ⟨hr, _⟩
    · exact hf
    · rw [hp] at hpos
      cases hpos
    · rw [hrec] at hr
      cases hr

/-- Witness for C10: the no-blocking consequence evaluated at the initial
state and slot 0. -/
theorem c10_initial_fences_signaled_witness :
    initSysState.fenceAt 0 = true :=
  c10_initial_fences_signaled.2.2.2 initSysState Reachable.init rfl 0
    (by decide) (by decide)

/-- C4: EndFrame's submit/present contract.  A non-throwing run submits the
command buffer waiting on the slot's "image acquired" semaphore at the
color-attachment-output stage, signalling a "rendering finished" semaphore
and fencing the slot's completion fence; it presents the acquired image
index waiting on that same "rendering finished" semaphore; it invoked
RecreateSwapchain exactly when the present reported OUT_OF_DATE or
SUBOPTIMAL or a resize had been recorded; and it advances the slot cursor
modulo kMaxFramesInFlight.  A failed submit throws, and a present failure
outside the rebuild condition throws. -/
theorem c4_endFrame_submit_present_contract (s : ContextState)
    (pr : VkResult) :
    (∀ r, endFrame s VkResult.success pr = Except.ok r →
      r.submit.waitSemaphores =
        [s.imageAvailableSemaphores.getD s.currentFrame (Semaphore.imageAvailable 0)] ∧
      r.submit.waitDstStageMask = [PipelineStage.colorAttachmentOutput] ∧
      r.submit.signalSemaphores =
        [s.renderFinishedSemaphores.getD s.currentFrame (Semaphore.renderFinished 0)] ∧
      r.submit.fenceSlot = s.currentFrame ∧
      r.present.waitSemaphores = r.submit.signalSemaphores ∧
      r.present.imageIndices = [s.currentSwapchainImageIndex] ∧
      r.state.currentFrame = (s.currentFrame + 1) % kMaxFramesInFlight ∧
      (r.recreatedSwapchain = true ↔
        (pr = VkResult.errorOutOfDateKHR ∨ pr = VkResult.suboptimalKHR ∨
          s.framebufferResized = true))) ∧
    (∀ sr, sr ≠ VkResult.success →
      endFrame s sr pr = Except.error DeviceError.submitFailed) ∧
    (pr ≠ VkResult.success → pr ≠ VkResult.errorOutOfDateKHR →
      pr ≠ VkResult.suboptimalKHR → s.framebufferResized = false →
      endFrame s VkResult.success pr = Except.error DeviceError.presentFailed) := by
  refine ⟨?_, ?_, ?_⟩
  · intro r hr
    unfold endFrame at hr
    rw [if_neg (by simp)] at hr
    split at hr
    · rename_i hcond
      simp only [Except.ok.injEq] at hr
      subst hr
      refine ⟨rfl, rfl, rfl, rfl, rfl, rfl, rfl, ?_⟩
      simpa using hcond
    · split at hr
      · cases hr
      · rename_i hcond _
        simp only [Except.ok.injEq] at hr
        subst hr
        constructor <;> first
          | rfl
          | exact ⟨rfl, rfl, rfl, rfl, rfl, rfl, by simpa using hcond⟩
  · intro sr hsr
    unfold endFrame
    rw [if_pos hsr]
  · intro h1 h2 h3 h4
    unfold endFrame
    rw [if_neg (by simp)]
    rw [if_neg (by simp [h2, h3, h4]), if_pos h1]

/-- Witness for C4: the fatal branches evaluated on the post-Initialize
context — a failed submit throws submitFailed, and a present failure outside
the rebuild condition throws presentFailed. -/
theorem c4_endFrame_submit_present_contract_witness :
    endFrame readyContext VkResult.errorOther VkResult.success =
      Except.error DeviceError.submitFailed ∧
    endFrame readyContext VkResult.success VkResult.errorOther =
      Except.error DeviceError.presentFailed :=
  ⟨(c4_endFrame_submit_present_contract readyContext VkResult.success).2.1
      VkResult.errorOther (by decide),
   (c4_endFrame_submit_present_contract readyContext VkResult.errorOther).2.2
      (by decide) (by decide) (by decide) rfl⟩

/-- C5: swapchain negotiation.  Format: the 8-bit sRGB format is chosen when
offered, else the first reported format.  Present mode: mailbox when
offered, else FIFO.  Image count: min + 1, clamped to the reported maximum,
hence within [min, max] whenever the surface reports consistent bounds.
Extent: the surface's current extent, unless the sentinel "any size" value
is reported, in which case the framebuffer size clamped to the capability
min/max extents. -/
theorem c5_swapchain_negotiation (formats : List VkSurfaceFormatKHR)
    (modes : List VkPresentMode) (caps : VkSurfaceCapabilitiesKHR)
    (fb : VkExtent2D)
    (hvalid : 0 < caps.maxImageCount → caps.minImageCount ≤ caps.maxImageCount) :
    ((∃ f ∈ formats, isPreferredSurfaceFormat f = true) →
      ∃ f, chooseSwapSurfaceFormat formats = some f ∧
        f.format = VkFormat.b8g8r8a8Srgb ∧
        f.colorSpace = VkColorSpace.srgbNonlinear) ∧
    ((∀ f ∈ formats, isPreferredSurfaceFormat f = false) →
      chooseSwapSurfaceFormat formats = formats.head?) ∧
    (chooseSwapPresentMode modes =
      if VkPresentMode.mailbox ∈ modes then VkPresentMode.mailbox
      else VkPresentMode.fifo) ∧
    caps.minImageCount ≤ swapchainImageCount caps ∧
    (0 < caps.maxImageCount → swapchainImageCount caps ≤ caps.maxImageCount) ∧
    ((caps.maxImageCount = 0 ∨ caps.minImageCount + 1 ≤ caps.maxImageCount) →
      swapchainImageCount caps = caps.minImageCount + 1) ∧
    (caps.currentExtent.width ≠ uint32Max →
      chooseSwapExtent caps fb = caps.currentExtent) ∧
    (caps.currentExtent.width = uint32Max →
      chooseSwapExtent caps fb =
        { width := cppClamp fb.width caps.minImageExtent.width
            caps.maxImageExtent.width
          height := cppClamp fb.height caps.minImageExtent.height
            caps.maxImageExtent.height }) := by
  refine ⟨?_, ?_, ?_, ?_, ?_, ?_, ?_, ?_⟩
  · rintro ⟨f, hf, hpf⟩
    have hsome : (formats.find? isPreferredSurfaceFormat).isSome :=
      List.find?_isSome.mpr ⟨f, hf, hpf⟩
    obtain ⟨g, hg⟩ := Option.isSome_iff_exists.mp hsome
    have hpg := List.find?_some hg
    simp only [isPreferredSurfaceFormat, decide_eq_true_eq, Bool.decide_and,
      Bool.and_eq_true] at hpg
    refine ⟨g, ?_, by simpa using hpg.1, by simpa using hpg.2⟩
    unfold chooseSwapSurfaceFormat
    rw [hg]
  · intro hall
    have hnone : formats.find? isPreferredSurfaceFormat = none :=
      List.find?_eq_none.mpr (fun x hx => by simp [hall x hx])
    unfold chooseSwapSurfaceFormat
    rw [hnone]
  · by_cases hm : VkPresentMode.mailbox ∈ modes
    · have hsome : (modes.find? (fun m => m = VkPresentMode.mailbox)).isSome :=
        List.find?_isSome.mpr ⟨VkPresentMode.mailbox, hm, by simp⟩
      obtain ⟨m, hm2⟩ := Option.isSome_iff_exists.mp hsome
      have hmeq := List.find?_some hm2
      simp only [decide_eq_true_eq] at hmeq
      unfold chooseSwapPresentMode
      rw [hm2, if_pos hm]
      exact hmeq
    · have hnone : modes.find? (fun m => m = VkPresentMode.mailbox) = none :=
        List.find?_eq_none.mpr (fun x hx => by
          simp only [decide_eq_true_eq]
          rintro rfl
          exact hm hx)
      unfold chooseSwapPresentMode
      rw [hnone, if_neg hm]
  · simp only [swapchainImageCount]
    split
    · rename_i hcond
      exact hvalid hcond.1
    · omega
  · intro hmax
    simp only [swapchainImageCount]
    split
    · exact Nat.le_refl _
    · rename_i hcond
      rw [not_and_or] at hcond
      rcases hcond with hc | hc
      · exact absurd hmax hc
      · omega
  · intro hcase
    simp only [swapchainImageCount]
    split
    · rename_i hcond
      rcases hcase with hc | hc
      · rw [hc] at hcond
        exact absurd hcond.1 (by decide)
      · omega
    · rfl
  · intro hne
    simp [chooseSwapExtent, hne]
  · intro hEq
    simp [chooseSwapExtent, hEq]

/-- Witness for C5: the [2, 4] scenario — the preferred format is chosen,
the image count is min + 1 = 3 which lies in [2, 4], and the 800x600 current
extent is used as-is. -/
theorem c5_swapchain_negotiation_witness :
    capsScenarioA.minImageCount ≤ swapchainImageCount capsScenarioA ∧
    (0 < capsScenarioA.maxImageCount →
      swapchainImageCount capsScenarioA ≤ capsScenarioA.maxImageCount) ∧
    ((capsScenarioA.maxImageCount = 0 ∨
        capsScenarioA.minImageCount + 1 ≤ capsScenarioA.maxImageCount) →
      swapchainImageCount capsScenarioA = capsScenarioA.minImageCount + 1) ∧
    (capsScenarioA.currentExtent.width ≠ uint32Max →
      chooseSwapExtent capsScenarioA { width := 800, height := 600 } =
        capsScenarioA.currentExtent) :=
  have h := c5_swapchain_negotiation formatsScenarioA
    [VkPresentMode.mailbox, VkPresentMode.fifo] capsScenarioA
    { width := 800, height := 600 } (by decide)
  ⟨h.2.2.2.1, h.2.2.2.2.1, h.2.2.2.2.2.1, h.2.2.2.2.2.2.1⟩

/-- C6: every swapchain rebuild that completes does so at a nonzero-area
framebuffer extent, and its action trace puts the global device-idle wait
strictly before any destruction of swapchain resources — no rebuild path
skips the wait. -/
theorem c6_rebuild_waits_idle_at_nonzero_extent (polls : List VkExtent2D)
    (e : VkExtent2D) (tr : List RebuildEvent)
    (h : recreateSwapchain polls = some (e, tr)) :
    e.width ≠ 0 ∧ e.height ≠ 0 ∧
    tr = [RebuildEvent.deviceWaitIdle, RebuildEvent.cleanupSwapchain,
      RebuildEvent.createSwapchain, RebuildEvent.createSwapchainFramebuffers] ∧
    tr.indexOf RebuildEvent.deviceWaitIdle <
      tr.indexOf RebuildEvent.cleanupSwapchain := by
  induction polls with
  | nil => cases h
  | cons p rest ih =>
    rw [recreateSwapchain] at h
    split at h
    · exact ih h
    · rename_i hnz
      simp only [Option.some.injEq, Prod.mk.injEq] at h
      obtain ⟨rfl, rfl⟩ := h
      push_neg at hnz
      exact ⟨hnz.1, hnz.2, rfl, by decide⟩

/-- Witness for C6: a minimized 0x0 poll followed by a 640x480 restore —
the rebuild proceeds at 640x480 with the wait-then-destroy trace. -/
theorem c6_rebuild_waits_idle_at_nonzero_extent_witness :
    ({ width := 640, height := 480 } : VkExtent2D).width ≠ 0 ∧
    ({ width := 640, height := 480 } : VkExtent2D).height ≠ 0 ∧
    ([RebuildEvent.deviceWaitIdle, RebuildEvent.cleanupSwapchain,
      RebuildEvent.createSwapchain, RebuildEvent.createSwapchainFramebuffers] =
      [RebuildEvent.deviceWaitIdle, RebuildEvent.cleanupSwapchain,
        RebuildEvent.createSwapchain, RebuildEvent.createSwapchainFramebuffers]) ∧
    ([RebuildEvent.deviceWaitIdle, RebuildEvent.cleanupSwapchain,
      RebuildEvent.createSwapchain,
      RebuildEvent.createSwapchainFramebuffers].indexOf
        RebuildEvent.deviceWaitIdle <
      [RebuildEvent.deviceWaitIdle, RebuildEvent.cleanupSwapchain,
        RebuildEvent.createSwapchain,
        RebuildEvent.createSwapchainFramebuffers].indexOf
          RebuildEvent.cleanupSwapchain) :=
  c6_rebuild_waits_idle_at_nonzero_extent
    [{ width := 0, height := 0 }, { width := 640, height := 480 }]
    { width := 640, height := 480 } _ rfl

/-- C7: the layout-transition lookup supports exactly the two pairs
(Undefined, TransferDestination) and (TransferDestination, ShaderReadOnly),
each with its fixed access-mask/stage-mask pair, and fails with the
unsupported-transition error on every other pair — in particular on the
direct Undefined → ShaderReadOnly request; and texture creation performs
exactly the sequence Undefined → TransferDestination, buffer-to-image copy,
TransferDestination → ShaderReadOnly. -/
theorem c7_transition_table :
    (∀ a b : VkImageLayout,
      (transitionMasks a b ≠ Except.error UploadError.unsupportedTransition) ↔
        ((a = VkImageLayout.undefinedLayout ∧
            b = VkImageLayout.transferDstOptimal) ∨
          (a = VkImageLayout.transferDstOptimal ∧
            b = VkImageLayout.shaderReadOnlyOptimal))) ∧
    transitionMasks VkImageLayout.undefinedLayout
        VkImageLayout.transferDstOptimal =
      Except.ok
        { srcAccessMask := []
          dstAccessMask := [VkAccess.transferWrite]
          sourceStage := PipelineStage.topOfPipe
          destinationStage := PipelineStage.transfer } ∧
    transitionMasks VkImageLayout.transferDstOptimal
        VkImageLayout.shaderReadOnlyOptimal =
      Except.ok
        { srcAccessMask := [VkAccess.transferWrite]
          dstAccessMask := [VkAccess.shaderRead]
          sourceStage := PipelineStage.transfer
          destinationStage := PipelineStage.fragmentShader } ∧
    transitionMasks VkImageLayout.undefinedLayout
        VkImageLayout.shaderReadOnlyOptimal =
      Except.error UploadError.unsupportedTransition ∧
    (∀ width height : Nat,
      (createTextureImage width height 4).1 =
        [TextureOp.allocStagingBuffer (width * height * 4),
         TextureOp.allocImage width height VkFormat.r8g8b8a8Srgb,
         TextureOp.transition VkImageLayout.undefinedLayout
           VkImageLayout.transferDstOptimal,
         TextureOp.copyBufferToImage width height,
         TextureOp.transition VkImageLayout.transferDstOptimal
           VkImageLayout.shaderReadOnlyOptimal,
         TextureOp.freeStagingBuffer]) := by
  refine ⟨?_, rfl, rfl, rfl, fun width height => rfl⟩
  intro a b
  cases a <;> cases b <;> simp [transitionMasks]

/-- C8 counterexample: the claim also asserts that a rejected channel count
allocates no GPU memory, but CreateTextureImage allocates (and, because the
throw skips the cleanup, leaks) the host-visible staging buffer before it
inspects the channel count: for a 16x16 2-channel request the call fails
with the unsupported-pixel-format error with a 512-byte staging-buffer
allocation already performed. -/
theorem c8_counterexample :
    (createTextureImage 16 16 2).2 =
      Except.error UploadError.unsupportedPixelFormat ∧
    (createTextureImage 16 16 2).1 = [TextureOp.allocStagingBuffer 512] ∧
    (createTextureImage 16 16 2).1 ≠ [] := by
  refine ⟨rfl, rfl, by decide⟩

/-- C8 (amended): a channel count outside {1, 3, 4} fails with the
unsupported-pixel-format error after allocating only the staging buffer —
no device-local image is allocated — while channel counts 1, 3 and 4 map to
the three fixed formats R8_SRGB, R8G8B8_SRGB and R8G8B8A8_SRGB. -/
theorem c8_unsupported_channel_count (width height components : Nat)
    (hc1 : components ≠ 1) (hc3 : components ≠ 3) (hc4 : components ≠ 4) :
    createTextureImage width height components =
      ([TextureOp.allocStagingBuffer (width * height * components)],
        Except.error UploadError.unsupportedPixelFormat) ∧
    (∀ w h : Nat, ∀ fmt : VkFormat,
      TextureOp.allocImage w h fmt ∉ (createTextureImage width height components).1) ∧
    (createTextureImage width height 1).2 = Except.ok VkFormat.r8Srgb ∧
    (createTextureImage width height 3).2 = Except.ok VkFormat.r8g8b8Srgb ∧
    (createTextureImage width height 4).2 = Except.ok VkFormat.r8g8b8a8Srgb := by
  have heq : createTextureImage width height components =
      ([TextureOp.allocStagingBuffer (width * height * components)],
        Except.error UploadError.unsupportedPixelFormat) := by
    rcases components with _ | _ | _ | _ | _ | c
    · rfl
    · exact absurd rfl hc1
    · rfl
    · exact absurd rfl hc3
    · exact absurd rfl hc4
    · rfl
  refine ⟨heq, ?_, rfl, rfl, rfl⟩
  intro w h fmt
  rw [heq]
  simp

/-- Witness for C8 (amended): an 8x8 2-channel request. -/
theorem c8_unsupported_channel_count_witness :
    createTextureImage 8 8 2 =
      ([TextureOp.allocStagingBuffer 128],
        Except.error UploadError.unsupportedPixelFormat) :=
  (c8_unsupported_channel_count 8 8 2 (by decide) (by decide) (by decide)).1

/-- C9 counterexample: the claimed chain "... shader modules, then images,
then buffers, then command pools, then synchronization objects, then the
device" does not match Cleanup: texture images and uniform buffers are
destroyed near the start (before the descriptor pools, pipelines and shader
modules), the synchronization objects are destroyed before the command
pools, and the vertex/index buffers after the command pools. -/
theorem c9_counterexample :
    destroyedBefore ResourceKind.commandPools ResourceKind.syncObjects = false ∧
    destroyedBefore ResourceKind.syncObjects ResourceKind.commandPools = true ∧
    destroyedBefore ResourceKind.shaderModules ResourceKind.textureImages = false ∧
    destroyedBefore ResourceKind.textureImages ResourceKind.shaderModules = true ∧
    destroyedBefore ResourceKind.uniformBuffers ResourceKind.descriptorPools = true ∧
    destroyedBefore ResourceKind.vertexBuffers ResourceKind.commandPools = false := by
  decide

/-- C9 (amended): Cleanup releases the per-kind collections en masse in the
fixed program order of cleanupOrder — swapchain resources, samplers, texture
images, uniform buffers, descriptor pools, descriptor set layouts,
pipelines, pipeline layouts, framebuffers, render passes, shader modules,
image views, synchronization objects, command pools, vertex buffers, index
buffers, then device, surface, instance, window.  In particular descriptor
pools precede pipelines precede pipeline layouts precede shader modules,
the synchronization objects precede the command pools, and the device is
destroyed after every tracked collection. -/
theorem c9_cleanup_order_as_implemented :
    List.Pairwise (fun a b => destroyedBefore a b = true) cleanupOrder ∧
    destroyedBefore ResourceKind.descriptorPools ResourceKind.pipelines = true ∧
    destroyedBefore ResourceKind.pipelines ResourceKind.pipelineLayouts = true ∧
    destroyedBefore ResourceKind.pipelineLayouts ResourceKind.shaderModules = true ∧
    destroyedBefore ResourceKind.syncObjects ResourceKind.commandPools = true ∧
    (cleanupOrder.take 16).all
      (fun k => destroyedBefore k ResourceKind.device) = true := by
  refine ⟨?_, rfl, rfl, rfl, rfl, rfl⟩
  decide

end Render
